import Mathlib

/-!
Verification development for the repository-acquisition subsystem
(`src/gitingest/repository_clone.py` of the MvXSDKIngest repository).

The Python module is shallowly embedded:
* pure string manipulation (Python `str.strip`, `str.splitlines`,
  `str.split(sep, maxsplit)`, `int(...)`, `str.lstrip`, `str.lower`)
  is modelled by executable Lean functions over `List Char`;
* the command sequences built by `clone_repo` are modelled by pure
  functions from the request configuration to argument lists;
* the effectful orchestrator is modelled by explicit state passing:
  an environment records the outcome of every external interaction
  (directory creation, the curl probe process, git availability,
  exit status of each issued command) and the orchestrator returns
  the trace of externally visible events, the resulting filesystem
  path set, and an `Except` outcome mirroring raised exceptions.
-/

/-- Characters treated as whitespace by Python `str.strip()`. -/
def pyIsSpace (c : Char) : Bool :=
  c = ' ' || c = '\t' || c = '\n' || c = '\r' || c = '\x0b' || c = '\x0c'

/-- Python `str.strip()`: remove leading and trailing whitespace. -/
def pyStrip (s : String) : String :=
  String.mk ((((s.toList.dropWhile pyIsSpace).reverse).dropWhile pyIsSpace).reverse)

/-- Line-boundary characters recognised by Python `str.splitlines()`. -/
def pyIsLineBreak (c : Char) : Bool :=
  c = '\n' || c = '\r' || c = '\x0b' || c = '\x0c' ||
  c = '\x1c' || c = '\x1d' || c = '\x1e' || c = '\x85' ||
  c = '\u2028' || c = '\u2029'

/-- Helper for `pySplitlines`: accumulates the current line (reversed). -/
def splitlinesAux : List Char → List Char → List (List Char)
  | [], acc => if acc.isEmpty then [] else [acc.reverse]
  | '\r' :: '\n' :: rest, acc => acc.reverse :: splitlinesAux rest []
  | c :: rest, acc =>
      if pyIsLineBreak c then acc.reverse :: splitlinesAux rest []
      else splitlinesAux rest (c :: acc)

/-- Python `str.splitlines()`: no trailing empty line for a final break. -/
def pySplitlines (s : String) : List String :=
  (splitlinesAux s.toList []).map (fun cs => String.mk cs)

/-- Helper for `pySplitSpace2`: split on single spaces, at most `k` splits. -/
def splitSpaceAux : List Char → Nat → List Char → List (List Char)
  | [], _, acc => [acc.reverse]
  | c :: rest, 0, acc => [acc.reverse ++ (c :: rest)]
  | c :: rest, Nat.succ k, acc =>
      if c = ' ' then acc.reverse :: splitSpaceAux rest k []
      else splitSpaceAux rest (Nat.succ k) (c :: acc)

/-- Python `s.split(" ", 2)`: split on single spaces, at most two splits. -/
def pySplitSpace2 (s : String) : List String :=
  (splitSpaceAux s.toList 2 []).map (fun cs => String.mk cs)

/-- Helper for `pyInt`: value of a non-empty run of ASCII digits. -/
def parseDigitsAux (acc : Nat) : List Char → Option Nat
  | [] => some acc
  | c :: rest =>
      if c.isDigit then parseDigitsAux (acc * 10 + (c.toNat - 48)) rest
      else none

/-- Python `int(s)` on a decimal literal: optional surrounding whitespace,
optional sign, then one or more ASCII digits; `none` models `ValueError`.
(Underscore separators and non-ASCII digits, which Python also accepts,
cannot occur in an HTTP status line and are not modelled.) -/
def pyInt (s : String) : Option Int :=
  match (pyStrip s).toList with
  | [] => none
  | '+' :: rest =>
      if rest.isEmpty then none else (parseDigitsAux 0 rest).map Int.ofNat
  | '-' :: rest =>
      if rest.isEmpty then none else (parseDigitsAux 0 rest).map (fun n => -(n : Int))
  | cs => (parseDigitsAux 0 cs).map Int.ofNat

/-- Python `str.lower()` restricted to ASCII (branch names compared with
"main"/"master" only involve ASCII letters). -/
def pyLower (s : String) : String :=
  String.mk (s.toList.map Char.toLower)

/-- Python `s.lstrip("/")`: drop every leading slash. -/
def pyLstripSlash (s : String) : String :=
  String.mk (s.toList.dropWhile (fun c => c = '/'))

/-- Does `hay` start with `needle`? (list version, used for substring search). -/
def startsWithList : List Char → List Char → Bool
  | _, [] => true
  | [], _ :: _ => false
  | a :: as, b :: bs => a = b && startsWithList as bs

/-- Suffix of `hay` after the first occurrence of `needle`; `none` if absent.
Models Python `hay.split(needle, 1)[1]` guarded by `needle in hay`. -/
def afterFirstSub (needle : List Char) : List Char → Option (List Char)
  | [] => if startsWithList [] needle then some [] else none
  | c :: t =>
      if startsWithList (c :: t) needle then some ((c :: t).drop needle.length)
      else afterFirstSub needle t

/-- Python truthiness of an `Optional[str]`: `None` and `""` are falsy. -/
def truthy : Option String → Bool
  | none => false
  | some s => !(s == "")

/-- Configuration for cloning a Git repository
(`CloneConfig` dataclass, repository_clone.py lines 14-40). -/
structure CloneConfig where
  url : String
  local_path : String
  commit : Option String := none
  branch : Option String := none
  subpath : String := "/"
deriving DecidableEq, Repr

/-- `partial_clone: bool = config.subpath != "/"` (line 69). -/
def sparseClone (cfg : CloneConfig) : Bool :=
  cfg.subpath ≠ "/"

/-- Flag portion of the clone command built by `clone_repo`
(lines 82-90), before `url` and `local_path` are appended. -/
def clone_flags (cfg : CloneConfig) : List String :=
  let cmd := ["git", "clone", "--recurse-submodules", "--single-branch"]
  let cmd := if sparseClone cfg then cmd ++ ["--filter=blob:none", "--sparse"] else cmd
  if truthy cfg.commit then cmd
  else
    let cmd := cmd ++ ["--depth=1"]
    match cfg.branch with
    | none => cmd
    | some b =>
        if b ≠ "" ∧ pyLower b ≠ "main" ∧ pyLower b ≠ "master" then
          cmd ++ ["--branch", b]
        else cmd

/-- The full clone command: flags then `url` and `local_path` (line 92). -/
def clone_cmd (cfg : CloneConfig) : List String :=
  clone_flags cfg ++ [cfg.url, cfg.local_path]

/-- The second command issued by `clone_repo` (lines 97-107): sparse-path
declaration and/or commit checkout on the cloned path; `none` when the
guard `commit or partial_clone` is falsy and no second command runs. -/
def checkout_cmd (cfg : CloneConfig) : Option (List String) :=
  if truthy cfg.commit || sparseClone cfg then
    some (["git", "-C", cfg.local_path] ++
      (if sparseClone cfg then ["sparse-checkout", "set", pyLstripSlash cfg.subpath] else []) ++
      (match cfg.commit with
       | none => []
       | some c => if c ≠ "" then ["checkout", c] else []))
  else none

/-- Result of one external process run: exit code and decoded stdout. -/
structure ProcResult where
  returncode : Int
  stdout : String
deriving DecidableEq, Repr

/-- `_get_status_code` (lines 236-252): first line of the response,
stripped, split on single spaces with maxsplit 2, second field parsed
as an integer. `none` models the uncaught `IndexError` (empty response
or missing second field) or `ValueError` (non-numeric field). -/
def get_status_code (response : String) : Option Int :=
  match (pySplitlines response).get? 0 with
  | none => none
  | some line =>
      match (pySplitSpace2 (pyStrip line)).get? 1 with
      | none => none
      | some fld => pyInt fld

/-- Outcome of `_check_repo_exists` (lines 110-149). -/
inductive ProbeOutcome where
  /-- The function returned the boolean. -/
  | reachable (b : Bool)
  /-- `RuntimeError` raised for a status code outside both known sets. -/
  | unexpectedStatus (c : Int)
  /-- Uncaught `IndexError` or `ValueError` escaping `_get_status_code`. -/
  | parseFailure
deriving DecidableEq, Repr

/-- `_check_repo_exists` as a function of the curl process result:
non-zero exit returns `False`; otherwise the status code extracted from
stdout is classified (lines 137-149). -/
def check_repo_exists (pr : ProcResult) : ProbeOutcome :=
  if pr.returncode ≠ 0 then .reachable false
  else
    match get_status_code pr.stdout with
    | none => .parseFailure
    | some c =>
        if c = 200 ∨ c = 301 then .reachable true
        else if c = 404 ∨ c = 302 then .reachable false
        else .unexpectedStatus c

/-- Parsing step of `fetch_remote_branch_list` (lines 169-173): for each
line of the decoded stdout that is non-blank and contains the marker
`refs/heads/`, keep the substring after the first occurrence. -/
def fetch_remote_branch_list (stdoutDecoded : String) : List String :=
  (pySplitlines stdoutDecoded).filterMap (fun line =>
    if pyStrip line ≠ "" ∧ (afterFirstSub (("refs/heads/").toList) line.toList).isSome then
      (afterFirstSub (("refs/heads/").toList) line.toList).map (fun cs => String.mk cs)
    else none)

/-- `TIMEOUT: int = 60` (line 11). -/
def TIMEOUT : Nat := 60

/-- Result of running an operation under the deadline guard. -/
inductive GuardResult (α : Type) where
  /-- The operation exceeded the deadline: `AsyncTimeoutError`. -/
  | timeout
  /-- The operation completed within the deadline with this result. -/
  | completed (a : α)
deriving DecidableEq, Repr

/-- Modelled from the spec: the `async_timeout` decorator is imported from
`gitingest.utils`, a module not present in the sources; spec section 4.1
describes it as running the operation and, if it does not complete within
the fixed duration, cancelling it and failing with a Timeout error
(`AsyncTimeoutError` in sdkingest/exceptions.py). `duration` is the time
the underlying operation needs; the guard yields its result only when
that time is within the limit. -/
def async_timeout {α : Type} (limit : Nat) (duration : Nat) (result : α) : GuardResult α :=
  if limit < duration then .timeout else .completed result

/-- `Path(local_path).parent` for POSIX-style paths: strip trailing
slashes, then drop the last component; no component yields the root or
the current directory. -/
def parentDir (p : String) : String :=
  let cs := (p.toList.reverse.dropWhile (fun c => c = '/')).reverse
  let pre := (cs.reverse.dropWhile (fun c => c ≠ '/')).reverse
  let pre := (pre.reverse.dropWhile (fun c => c = '/')).reverse
  if pre.isEmpty then
    if p.toList.get? 0 = some '/' then ("/") else (".")
  else String.mk pre

/-- Externally visible events of one `clone_repo` run, in order. -/
inductive Event where
  /-- `os.makedirs(parent_dir, exist_ok=True)` (line 74). -/
  | makedirs (parent : String)
  /-- The curl header probe of `_check_repo_exists` (lines 128-135). -/
  | probe (url : String)
  /-- `check_git_installed` run by `_run_command` (line 195). -/
  | gitVersionCheck
  /-- The external command executed by `_run_command` (lines 198-203). -/
  | exec (cmd : List String)
deriving DecidableEq, Repr

/-- Exceptions `clone_repo` can raise, by site. -/
inductive CloneError where
  /-- `OSError` from creating the parent directory (line 76). -/
  | osError
  /-- `ValueError` repository not found (line 80). -/
  | notFound
  /-- `RuntimeError` for an unexpected probe status (line 149). -/
  | unexpectedStatus (c : Int)
  /-- Unclassified parse failure escaping `_get_status_code`. -/
  | parseFailure
  /-- `RuntimeError` from `check_git_installed` (lines 230-233). -/
  | gitMissing
  /-- `RuntimeError` from a command exiting non-zero (line 206). -/
  | commandFailed (cmd : List String)
deriving DecidableEq, Repr

/-- Environment fixing the outcome of every external interaction of one
`clone_repo` run. -/
structure Env where
  /-- Does `os.makedirs` succeed? -/
  makedirsOk : Bool
  /-- Result of the curl probe process. -/
  probe : ProcResult
  /-- Is the git binary present and responsive? -/
  gitOk : Bool
  /-- Exit status (success?) of each issued external command. -/
  cmdOk : List String → Bool
  /-- Does a failed clone leave a partially written directory behind? -/
  cloneLeavesDirOnFailure : Bool

/-- Add a path to the filesystem path set if not already present. -/
def addPath (fs : List String) (p : String) : List String :=
  if p ∈ fs then fs else fs ++ [p]

/-- `clone_repo` (lines 43-107), embedded by explicit state passing.
Returns the ordered trace of externally visible events, the filesystem
path set after the run (paths present on disk), and the outcome.
The structure mirrors the source line by line: create the parent
directory, probe the repository, build and run the clone command via
`_run_command` (which first runs `check_git_installed`), then, when
`commit or partial_clone`, build and run the combined
sparse-checkout/checkout command the same way. -/
def clone_repo (cfg : CloneConfig) (env : Env) (fs0 : List String) :
    List Event × List String × Except CloneError Unit :=
  let p := parentDir cfg.local_path
  if env.makedirsOk = false then
    ([Event.makedirs p], fs0, .error .osError)
  else
    let fs1 := addPath fs0 p
    match check_repo_exists env.probe with
    | .parseFailure =>
        ([Event.makedirs p, Event.probe cfg.url], fs1, .error .parseFailure)
    | .unexpectedStatus c =>
        ([Event.makedirs p, Event.probe cfg.url], fs1, .error (.unexpectedStatus c))
    | .reachable false =>
        ([Event.makedirs p, Event.probe cfg.url], fs1, .error .notFound)
    | .reachable true =>
        if env.gitOk = false then
          ([Event.makedirs p, Event.probe cfg.url, Event.gitVersionCheck], fs1,
            .error .gitMissing)
        else
          let tr := [Event.makedirs p, Event.probe cfg.url, Event.gitVersionCheck,
            Event.exec (clone_cmd cfg)]
          if env.cmdOk (clone_cmd cfg) = false then
            (tr,
              (if env.cloneLeavesDirOnFailure then addPath fs1 cfg.local_path else fs1),
              .error (.commandFailed (clone_cmd cfg)))
          else
            let fs2 := addPath fs1 cfg.local_path
            match checkout_cmd cfg with
            | none => (tr, fs2, .ok ())
            | some c2 =>
                if env.cmdOk c2 = false then
                  (tr ++ [Event.gitVersionCheck, Event.exec c2], fs2,
                    .error (.commandFailed c2))
                else
                  (tr ++ [Event.gitVersionCheck, Event.exec c2], fs2, .ok ())

/-- `clone_repo` under its `@async_timeout(TIMEOUT)` decorator (line 43);
`duration` is the time the run would need. -/
def clone_repo_guarded (cfg : CloneConfig) (env : Env) (fs0 : List String)
    (duration : Nat) : GuardResult (List Event × List String × Except CloneError Unit) :=
  async_timeout TIMEOUT duration (clone_repo cfg env fs0)

/-- `fetch_remote_branch_list` under its `@async_timeout(TIMEOUT)`
decorator (line 152); `duration` is the time the run would need. -/
def fetch_remote_branch_list_guarded (stdoutDecoded : String) (duration : Nat) :
    GuardResult (List String) :=
  async_timeout TIMEOUT duration (fetch_remote_branch_list stdoutDecoded)

/-- A curl result carrying a 200 status line, exit code 0. -/
def probeOk : ProcResult := ⟨0, "HTTP/1.1 200 OK\r\ncontent-type: text/html"⟩

/-- A curl result carrying a 404 status line, exit code 0. -/
def probe404 : ProcResult := ⟨0, "HTTP/1.1 404 Not Found"⟩

/-- Environment in which every external interaction succeeds. -/
def envAllOk : Env := ⟨true, probeOk, true, fun _ => true, false⟩

/-- Environment in which the probe answers 404; everything else succeeds. -/
def env404 : Env := ⟨true, probe404, true, fun _ => true, false⟩

/-- Plain request: whole tree, latest revision of the default branch. -/
def cfgPlain : CloneConfig := ⟨"u", "p", none, none, "/"⟩

/-- Request restricted to the subtree `/src`, no commit. -/
def cfgSparse : CloneConfig := ⟨"u", "p", none, none, "/src"⟩

/-- Request whose destination lives under a not-yet-existing parent. -/
def cfgNested : CloneConfig := ⟨"u", "tmp/p", none, none, "/"⟩

/-- Request whose commit field is set to the empty string. -/
def cfgEmptyCommit : CloneConfig := ⟨"u", "p", some (""), none, "/"⟩

/-- Request pinned to a concrete commit. -/
def cfgCommit : CloneConfig := ⟨"u", "p", some ("abc123"), none, "/"⟩


lemma mem_addPath_self (fs : List String) (p : String) : p ∈ addPath fs p := by
  unfold addPath
  split
  · assumption
  · simp

lemma mem_addPath_of_mem (fs : List String) (p x : String) (hx : x ∈ fs) :
    x ∈ addPath fs p := by
  unfold addPath
  split
  · exact hx
  · simp [hx]

lemma clone_flags_of_truthy_commit (cfg : CloneConfig) (h : truthy cfg.commit = true) :
    clone_flags cfg =
      (if sparseClone cfg then
        ["git", "clone", "--recurse-submodules", "--single-branch",
          "--filter=blob:none", "--sparse"]
      else ["git", "clone", "--recurse-submodules", "--single-branch"]) := by
  unfold clone_flags
  split <;> simp_all

lemma truthy_some_ne (c : String) (hne : c ≠ "") : truthy (some c) = true := by
  simp [truthy, hne]

lemma checkout_cmd_of_commit (cfg : CloneConfig) (c : String)
    (hc : cfg.commit = some c) (hne : c ≠ "") :
    checkout_cmd cfg =
      some (["git", "-C", cfg.local_path] ++
        (if sparseClone cfg then
          ["sparse-checkout", "set", pyLstripSlash cfg.subpath] else []) ++
        ["checkout", c]) := by
  unfold checkout_cmd
  rw [hc, truthy_some_ne c hne]
  simp [hne]

/-- C2: for every acquisition request with subtree_path equal to "/" and
no commit, the generated clone command contains the shallow-depth flag
--depth=1, and its flag portion is exactly the constant base flags plus
the depth flag plus at most a branch selection: in particular neither the
blob-filter flag nor the sparse flag is ever appended. -/
theorem c2_full_tree_shallow (cfg : CloneConfig) (hs : cfg.subpath = "/")
    (hc : cfg.commit = none) :
    ("--depth=1") ∈ clone_flags cfg ∧
    (∃ bs, clone_flags cfg =
        ["git", "clone", "--recurse-submodules", "--single-branch", "--depth=1"] ++ bs ∧
      (bs = [] ∨ ∃ b, cfg.branch = some b ∧ bs = ["--branch", b])) ∧
    clone_cmd cfg = clone_flags cfg ++ [cfg.url, cfg.local_path] := by
  have hsp : sparseClone cfg = false := by simp [sparseClone, hs]
  have hx : ∃ bs, clone_flags cfg =
      ["git", "clone", "--recurse-submodules", "--single-branch", "--depth=1"] ++ bs ∧
      (bs = [] ∨ ∃ b, cfg.branch = some b ∧ bs = ["--branch", b]) := by
    cases hb : cfg.branch with
    | none =>
        exact ⟨[], by simp [clone_flags, hc, hb, hsp, truthy], Or.inl rfl⟩
    | some b =>
        by_cases hcond : b ≠ "" ∧ pyLower b ≠ "main" ∧ pyLower b ≠ "master"
        · refine ⟨["--branch", b], ?_, Or.inr ⟨b, rfl, rfl⟩⟩
          simp [clone_flags, hc, hb, hsp, truthy, hcond]
        · refine ⟨[], ?_, Or.inl rfl⟩
          simp only [clone_flags, hc, hb, hsp, truthy]
          simp [hcond]
  obtain ⟨bs, hbs, hshape⟩ := hx
  refine ⟨?_, ⟨bs, hbs, hshape⟩, rfl⟩
  rw [hbs]; simp

/-- C2 witness: the plain whole-tree request evaluated concretely. -/
theorem c2_witness :
    ("--depth=1") ∈ clone_flags cfgPlain ∧
    clone_cmd cfgPlain = clone_flags cfgPlain ++ [cfgPlain.url, cfgPlain.local_path] :=
  ⟨(c2_full_tree_shallow cfgPlain rfl rfl).1, (c2_full_tree_shallow cfgPlain rfl rfl).2.2⟩

/-- C8: for every request whose branch equals "main" or "master" under
case-insensitive comparison and whose commit is unset, no branch-selection
flag is appended to the generated clone command. -/
theorem c8_default_branch_no_flag (cfg : CloneConfig) (b : String)
    (hc : cfg.commit = none) (hb : cfg.branch = some b)
    (hd : pyLower b = "main" ∨ pyLower b = "master") :
    ("--branch") ∉ clone_flags cfg ∧
    clone_cmd cfg = clone_flags cfg ++ [cfg.url, cfg.local_path] := by
  have hcond : ¬(b ≠ "" ∧ pyLower b ≠ "main" ∧ pyLower b ≠ "master") := by
    rcases hd with h | h
    · intro hx; exact hx.2.1 h
    · intro hx; exact hx.2.2 h
  have ht : truthy cfg.commit = false := by rw [hc]; rfl
  have hfl : clone_flags cfg =
      (if sparseClone cfg then
        ["git", "clone", "--recurse-submodules", "--single-branch",
          "--filter=blob:none", "--sparse", "--depth=1"]
      else ["git", "clone", "--recurse-submodules", "--single-branch", "--depth=1"]) := by
    simp only [clone_flags, hb, ht, Bool.false_eq_true, if_false]
    rw [if_neg hcond]
    split <;> simp
  refine ⟨?_, rfl⟩
  rw [hfl]
  split <;> decide

/-- C8 witness: branch "MAIN" with no commit, evaluated concretely. -/
theorem c8_witness :
    ("--branch") ∉ clone_flags ⟨"u", "p", none, some ("MAIN"), "/"⟩ :=
  (c8_default_branch_no_flag ⟨"u", "p", none, some ("MAIN"), "/"⟩ ("MAIN")
    rfl rfl (Or.inl (by decide))).1

/-- C4: with a probe process exiting zero and a status code successfully
extracted, the probe reports reachable exactly for codes 200 and 301,
unreachable exactly for codes 404 and 302, and raises the
unexpected-status error for every other code; a non-zero probe exit
reports unreachable instead of raising. -/
theorem c4_probe_classification (pr : ProcResult) :
    (∀ c : Int, pr.returncode = 0 → get_status_code pr.stdout = some c →
      ((check_repo_exists pr = .reachable true ↔ (c = 200 ∨ c = 301)) ∧
       (check_repo_exists pr = .reachable false ↔ (c = 404 ∨ c = 302)) ∧
       (¬(c = 200 ∨ c = 301) → ¬(c = 404 ∨ c = 302) →
         check_repo_exists pr = .unexpectedStatus c))) ∧
    (pr.returncode ≠ 0 → check_repo_exists pr = .reachable false) := by
  constructor
  · intro c h0 hsc
    have hch : check_repo_exists pr =
        (if c = 200 ∨ c = 301 then ProbeOutcome.reachable true
         else if c = 404 ∨ c = 302 then ProbeOutcome.reachable false
         else ProbeOutcome.unexpectedStatus c) := by
      simp [check_repo_exists, h0, hsc]
    rw [hch]
    refine ⟨?_, ?_, ?_⟩
    · constructor
      · intro hr
        by_contra hn
        rw [if_neg hn] at hr
        by_cases h2 : c = 404 ∨ c = 302
        · rw [if_pos h2] at hr; simp at hr
        · rw [if_neg h2] at hr; simp at hr
      · intro hn; rw [if_pos hn]
    · constructor
      · intro hr
        by_cases h1 : c = 200 ∨ c = 301
        · rw [if_pos h1] at hr; simp at hr
        · rw [if_neg h1] at hr
          by_contra hn
          rw [if_neg hn] at hr; simp at hr
      · intro hn
        have h1 : ¬(c = 200 ∨ c = 301) := by
          rcases hn with h | h <;> subst h <;> decide
        rw [if_neg h1, if_pos hn]
    · intro h1 h2
      rw [if_neg h1, if_neg h2]
  · intro h0
    simp [check_repo_exists, h0]

/-- C4 witness: a 200 response classified reachable; a curl exit code 6
classified unreachable without raising. -/
theorem c4_witness :
    check_repo_exists probeOk = .reachable true ∧
    check_repo_exists ⟨6, ""⟩ = .reachable false :=
  ⟨(((c4_probe_classification probeOk).1 200 rfl (by decide)).1).mpr (Or.inl rfl),
    (c4_probe_classification ⟨6, ""⟩).2 (by decide)⟩

/-- C10: when the probe process exits zero but its stdout is empty, or the
first output line has no numeric second space-separated field, the probe
ends in the unclassified parse failure (IndexError or ValueError escaping
status-line extraction) rather than returning a boolean or one of the
declared error kinds. -/
theorem c10_parse_failure (pr : ProcResult) (h0 : pr.returncode = 0)
    (h : pr.stdout = "" ∨
      ∃ line, (pySplitlines pr.stdout).get? 0 = some line ∧
        ∀ fld, (pySplitSpace2 (pyStrip line)).get? 1 = some fld → pyInt fld = none) :
    check_repo_exists pr = .parseFailure ∧
    (∀ b, check_repo_exists pr ≠ .reachable b) ∧
    (∀ c, check_repo_exists pr ≠ .unexpectedStatus c) := by
  have hsc : get_status_code pr.stdout = none := by
    rcases h with h | ⟨line, hline, hfld⟩
    · rw [h]; rfl
    · unfold get_status_code
      rw [hline]
      show (match (pySplitSpace2 (pyStrip line)).get? 1 with
        | none => none
        | some fld => pyInt fld) = none
      cases hf : (pySplitSpace2 (pyStrip line)).get? 1 with
      | none => rfl
      | some fld => exact hfld fld hf
  have hres : check_repo_exists pr = .parseFailure := by
    simp [check_repo_exists, h0, hsc]
  exact ⟨hres, fun b => by rw [hres]; simp, fun c => by rw [hres]; simp⟩

/-- C10 witness: successful exit with empty stdout ends in parse failure. -/
theorem c10_witness : check_repo_exists ⟨0, ""⟩ = .parseFailure :=
  (c10_parse_failure ⟨0, ""⟩ rfl (Or.inl rfl)).1

/-- C7: both externally reachable entry points are wrapped in the
60-time-unit deadline guard, and a guarded run that needs longer than the
deadline ends in the timeout outcome and nothing else, whatever the
underlying operation would have produced. -/
theorem c7_deadline_guard (cfg : CloneConfig) (env : Env) (fs0 : List String)
    (s : String) (d : Nat) (hd : TIMEOUT < d) :
    TIMEOUT = 60 ∧
    clone_repo_guarded cfg env fs0 d = .timeout ∧
    fetch_remote_branch_list_guarded s d = .timeout := by
  refine ⟨rfl, ?_, ?_⟩ <;>
    simp [clone_repo_guarded, fetch_remote_branch_list_guarded, async_timeout, hd]

/-- C7 witness: a 61-unit run of either entry point times out. -/
theorem c7_witness :
    TIMEOUT = 60 ∧
    clone_repo_guarded cfgPlain envAllOk [] 61 = .timeout ∧
    fetch_remote_branch_list_guarded ("") 61 = .timeout :=
  c7_deadline_guard cfgPlain envAllOk [] ("") 61 (by decide)

/-- C5: in every acquisition whose existence probe reports unreachable
(and whose directory preparation succeeded, so that the probe actually
ran), the run fails with the repository-not-found error, the trace stops
at the probe, and no external command — neither clone nor checkout — is
ever issued. -/
theorem c5_unreachable_no_clone (cfg : CloneConfig) (env : Env) (fs0 : List String)
    (h1 : env.makedirsOk = true)
    (h2 : check_repo_exists env.probe = .reachable false) :
    (clone_repo cfg env fs0).2.2 = .error .notFound ∧
    (clone_repo cfg env fs0).1 =
      [Event.makedirs (parentDir cfg.local_path), Event.probe cfg.url] ∧
    ∀ cmd, Event.exec cmd ∉ (clone_repo cfg env fs0).1 := by
  have hrun : clone_repo cfg env fs0 =
      ([Event.makedirs (parentDir cfg.local_path), Event.probe cfg.url],
        addPath fs0 (parentDir cfg.local_path), .error .notFound) := by
    unfold clone_repo
    simp [h1, h2]
  rw [hrun]
  refine ⟨rfl, rfl, ?_⟩
  intro cmd hmem
  simp at hmem

/-- C5 witness: a 404 probe answer on the plain request. -/
theorem c5_witness :
    (clone_repo cfgPlain env404 []).2.2 = .error .notFound ∧
    (clone_repo cfgPlain env404 []).1 =
      [Event.makedirs (parentDir cfgPlain.local_path), Event.probe cfgPlain.url] :=
  ⟨(c5_unreachable_no_clone cfgPlain env404 [] rfl (by decide)).1,
    (c5_unreachable_no_clone cfgPlain env404 [] rfl (by decide)).2.1⟩

/-- C6 counterexample: a fully successful plain acquisition. The trace
shows the existence probe at position 1 and the first tool availability
check only at position 2: the tool check does not precede the probe, so
the claimed order (preparation, tool check, probe, clone) is false; the
tool check runs inside the command runner, after the probe. -/
theorem c6_counterexample :
    (clone_repo cfgPlain envAllOk []).1 =
      [Event.makedirs ("."), Event.probe ("u"), Event.gitVersionCheck,
        Event.exec (clone_cmd cfgPlain)] ∧
    (clone_repo cfgPlain envAllOk []).1.findIdx
        (fun e => e == Event.probe ("u")) <
      (clone_repo cfgPlain envAllOk []).1.findIdx
        (fun e => e == Event.gitVersionCheck) := by
  constructor
  · decide
  · decide

/-- C6 (amended): within one acquisition the steps occur in exactly this
order — directory preparation, existence probe, tool availability check,
clone command, then (when a second command is required) another tool
check and the combined checkout command — and no step runs before its
predecessor succeeds: a failing step truncates the trace at that step. -/
theorem c6_step_order (cfg : CloneConfig) (env : Env) (fs0 : List String) :
    (env.makedirsOk = false →
      (clone_repo cfg env fs0).1 = [Event.makedirs (parentDir cfg.local_path)]) ∧
    (env.makedirsOk = true → check_repo_exists env.probe ≠ .reachable true →
      (clone_repo cfg env fs0).1 =
        [Event.makedirs (parentDir cfg.local_path), Event.probe cfg.url]) ∧
    (env.makedirsOk = true → check_repo_exists env.probe = .reachable true →
      env.gitOk = false →
      (clone_repo cfg env fs0).1 =
        [Event.makedirs (parentDir cfg.local_path), Event.probe cfg.url,
          Event.gitVersionCheck]) ∧
    (env.makedirsOk = true → check_repo_exists env.probe = .reachable true →
      env.gitOk = true → env.cmdOk (clone_cmd cfg) = false →
      (clone_repo cfg env fs0).1 =
        [Event.makedirs (parentDir cfg.local_path), Event.probe cfg.url,
          Event.gitVersionCheck, Event.exec (clone_cmd cfg)]) ∧
    (env.makedirsOk = true → check_repo_exists env.probe = .reachable true →
      env.gitOk = true → env.cmdOk (clone_cmd cfg) = true →
      (clone_repo cfg env fs0).1 =
        [Event.makedirs (parentDir cfg.local_path), Event.probe cfg.url,
          Event.gitVersionCheck, Event.exec (clone_cmd cfg)] ++
        (match checkout_cmd cfg with
         | none => []
         | some c2 => [Event.gitVersionCheck, Event.exec c2])) := by
  refine ⟨?_, ?_, ?_, ?_, ?_⟩
  · intro h1
    unfold clone_repo
    simp [h1]
  · intro h1 h2
    unfold clone_repo
    cases hpr : check_repo_exists env.probe with
    | reachable b =>
        cases b with
        | true => exact absurd hpr h2
        | false => simp [h1, hpr]
    | unexpectedStatus c => simp [h1, hpr]
    | parseFailure => simp [h1, hpr]
  · intro h1 h2 h3
    unfold clone_repo
    simp [h1, h2, h3]
  · intro h1 h2 h3 h4
    unfold clone_repo
    simp [h1, h2, h3, h4]
  · intro h1 h2 h3 h4
    unfold clone_repo
    cases hco : checkout_cmd cfg with
    | none => simp [h1, h2, h3, h4, hco]
    | some c2 =>
        cases h5 : env.cmdOk c2 with
        | true => simp [h1, h2, h3, h4, h5, hco]
        | false => simp [h1, h2, h3, h4, h5, hco]

/-- C6 witness: the amended order evaluated on a successful sparse run. -/
theorem c6_witness :
    (clone_repo cfgSparse envAllOk []).1 =
      [Event.makedirs (parentDir cfgSparse.local_path), Event.probe cfgSparse.url,
        Event.gitVersionCheck, Event.exec (clone_cmd cfgSparse)] ++
      (match checkout_cmd cfgSparse with
       | none => []
       | some c2 => [Event.gitVersionCheck, Event.exec c2]) :=
  (c6_step_order cfgSparse envAllOk []).2.2.2.2 rfl (by decide) rfl rfl

/-- C9 counterexample: the destination parent directory "tmp" is created
before the existence probe runs; when the probe then answers 404 the run
fails with the not-found error, yet the filesystem has gained the created
parent directory — a durable artifact of a failed acquisition. -/
theorem c9_counterexample :
    (clone_repo cfgNested env404 []).2.2 = .error .notFound ∧
    (clone_repo cfgNested env404 []).2.1 = [("tmp")] ∧
    (clone_repo cfgNested env404 []).2.1 ≠ ([] : List String) := by
  refine ⟨rfl, by decide, by decide⟩

/-- C9 (amended): a failed acquisition may leave durable artifacts; the
orchestrator performs no rollback. The filesystem only grows — every path
present before the run is still present after it — and once directory
preparation has succeeded the created parent directory persists whatever
happens later, failure included. -/
theorem c9_no_rollback (cfg : CloneConfig) (env : Env) (fs0 : List String) :
    (∀ x, x ∈ fs0 → x ∈ (clone_repo cfg env fs0).2.1) ∧
    (env.makedirsOk = true →
      parentDir cfg.local_path ∈ (clone_repo cfg env fs0).2.1) := by
  cases h1 : env.makedirsOk with
  | false =>
      constructor
      · intro x hx
        unfold clone_repo
        simp [h1, hx]
      · intro h
        exact absurd h (by decide)
  | true =>
      have key : (clone_repo cfg env fs0).2.1 =
            addPath fs0 (parentDir cfg.local_path) ∨
          (clone_repo cfg env fs0).2.1 =
            addPath (addPath fs0 (parentDir cfg.local_path)) cfg.local_path := by
        unfold clone_repo
        cases hpr : check_repo_exists env.probe with
        | reachable b =>
            cases b with
            | false => left; simp [h1, hpr]
            | true =>
                cases h3 : env.gitOk with
                | false => left; simp [h1, hpr, h3]
                | true =>
                    cases h4 : env.cmdOk (clone_cmd cfg) with
                    | false =>
                        cases h6 : env.cloneLeavesDirOnFailure with
                        | false => left; simp [h1, hpr, h3, h4, h6]
                        | true => right; simp [h1, hpr, h3, h4, h6]
                    | true =>
                        cases hco : checkout_cmd cfg with
                        | none => right; simp [h1, hpr, h3, h4, hco]
                        | some c2 =>
                            cases h5 : env.cmdOk c2 with
                            | false => right; simp [h1, hpr, h3, h4, h5, hco]
                            | true => right; simp [h1, hpr, h3, h4, h5, hco]
        | unexpectedStatus c => left; simp [h1, hpr]
        | parseFailure => left; simp [h1, hpr]
      constructor
      · intro x hx
        rcases key with k | k <;> rw [k]
        · exact mem_addPath_of_mem _ _ _ hx
        · exact mem_addPath_of_mem _ _ _ (mem_addPath_of_mem _ _ _ hx)
      · intro _
        rcases key with k | k <;> rw [k]
        · exact mem_addPath_self _ _
        · exact mem_addPath_of_mem _ _ _ (mem_addPath_self _ _)

/-- C9 witness: on the failed 404 acquisition, the created parent
directory "tmp" is still present afterwards. -/
theorem c9_witness :
    parentDir cfgNested.local_path ∈ (clone_repo cfgNested env404 []).2.1 :=
  (c9_no_rollback cfgNested env404 []).2 rfl

lemma clone_repo_trace_ok (cfg : CloneConfig) (env : Env) (fs0 : List String)
    (h1 : env.makedirsOk = true)
    (h2 : check_repo_exists env.probe = .reachable true)
    (h3 : env.gitOk = true) (h4 : env.cmdOk (clone_cmd cfg) = true) :
    (clone_repo cfg env fs0).1 =
      [Event.makedirs (parentDir cfg.local_path), Event.probe cfg.url,
        Event.gitVersionCheck, Event.exec (clone_cmd cfg)] ++
      (match checkout_cmd cfg with
       | none => []
       | some c2 => [Event.gitVersionCheck, Event.exec c2]) := by
  unfold clone_repo
  cases hco : checkout_cmd cfg with
  | none => simp [h1, h2, h3, h4, hco]
  | some c2 =>
      cases h5 : env.cmdOk c2 with
      | true => simp [h1, h2, h3, h4, h5, hco]
      | false => simp [h1, h2, h3, h4, h5, hco]

/-- C1 counterexample: a request whose commit field is set — to the empty
string — for which the generated clone command does contain the
shallow-depth flag and no checkout command is issued at all (Python
truthiness: an empty commit string behaves as absent). -/
theorem c1_counterexample :
    cfgEmptyCommit.commit ≠ none ∧
    ("--depth=1") ∈ clone_cmd cfgEmptyCommit ∧
    checkout_cmd cfgEmptyCommit = none := by
  refine ⟨by decide, by decide, by decide⟩

/-- C1 (amended): for every request whose commit is set to a non-empty
string, the generated clone command never contains the shallow-depth
flag, and — whenever the clone command is actually issued and completes —
a checkout command naming that exact commit is issued after it. -/
theorem c1_commit_pin (cfg : CloneConfig) (env : Env) (fs0 : List String)
    (c : String) (hc : cfg.commit = some c) (hne : c ≠ "") :
    ("--depth=1") ∉ clone_flags cfg ∧
    (env.makedirsOk = true → check_repo_exists env.probe = .reachable true →
      env.gitOk = true → env.cmdOk (clone_cmd cfg) = true →
      ∃ pre, checkout_cmd cfg = some (pre ++ [("checkout"), c]) ∧
        (clone_repo cfg env fs0).1 =
          [Event.makedirs (parentDir cfg.local_path), Event.probe cfg.url,
            Event.gitVersionCheck, Event.exec (clone_cmd cfg),
            Event.gitVersionCheck, Event.exec (pre ++ [("checkout"), c])]) := by
  have ht : truthy cfg.commit = true := by rw [hc]; exact truthy_some_ne c hne
  constructor
  · rw [clone_flags_of_truthy_commit cfg ht]
    split <;> decide
  · intro h1 h2 h3 h4
    refine ⟨["git", "-C", cfg.local_path] ++
      (if sparseClone cfg then
        ["sparse-checkout", "set", pyLstripSlash cfg.subpath] else []), ?_, ?_⟩
    · rw [checkout_cmd_of_commit cfg c hc hne]
    · rw [clone_repo_trace_ok cfg env fs0 h1 h2 h3 h4,
        checkout_cmd_of_commit cfg c hc hne]
      simp

/-- C1 witness: the non-empty-commit request has no shallow flag. -/
theorem c1_witness : ("--depth=1") ∉ clone_flags cfgCommit :=
  (c1_commit_pin cfgCommit envAllOk [] ("abc123") rfl (by decide)).1

/-- C3: for every request with subtree_path not equal to "/", the clone
command carries both the blob-filter and sparse flags, and the second
command — issued on the cloned path after the clone command completes —
opens with the sparse-path declaration for the subtree with its leading
slashes removed, followed (exactly when a non-empty commit is set) by the
checkout of that commit, both sub-steps in the one combined invocation. -/
theorem c3_sparse_two_phase (cfg : CloneConfig) (env : Env) (fs0 : List String)
    (hs : cfg.subpath ≠ "/") :
    ("--filter=blob:none") ∈ clone_flags cfg ∧
    ("--sparse") ∈ clone_flags cfg ∧
    (∃ t, checkout_cmd cfg =
        some (["git", "-C", cfg.local_path, "sparse-checkout", "set",
          pyLstripSlash cfg.subpath] ++ t) ∧
      ((∃ c, cfg.commit = some c ∧ c ≠ "" ∧ t = ["checkout", c]) ∨
        (truthy cfg.commit = false ∧ t = []))) ∧
    (env.makedirsOk = true → check_repo_exists env.probe = .reachable true →
      env.gitOk = true → env.cmdOk (clone_cmd cfg) = true →
      ∀ c2, checkout_cmd cfg = some c2 →
        (clone_repo cfg env fs0).1 =
          [Event.makedirs (parentDir cfg.local_path), Event.probe cfg.url,
            Event.gitVersionCheck, Event.exec (clone_cmd cfg),
            Event.gitVersionCheck, Event.exec c2]) := by
  have hsp : sparseClone cfg = true := by simp [sparseClone, hs]
  have hmem : ("--filter=blob:none") ∈ clone_flags cfg ∧
      ("--sparse") ∈ clone_flags cfg := by
    unfold clone_flags
    simp only [hsp, if_true]
    by_cases ht : truthy cfg.commit = true
    · simp [ht]
    · simp only [ht, if_false]
      cases hb : cfg.branch with
      | none => simp
      | some b =>
          by_cases hcond : b ≠ "" ∧ pyLower b ≠ "main" ∧ pyLower b ≠ "master" <;>
            simp [hb, hcond]
  refine ⟨hmem.1, hmem.2, ?_, ?_⟩
  · cases hc : cfg.commit with
    | none =>
        refine ⟨[], ?_, Or.inr ⟨rfl, rfl⟩⟩
        simp [checkout_cmd, hsp, hc, truthy]
    | some c =>
        by_cases hcne : c = ""
        · subst hcne
          refine ⟨[], ?_, Or.inr ⟨rfl, rfl⟩⟩
          simp [checkout_cmd, hsp, hc, truthy]
        · refine ⟨["checkout", c], ?_, Or.inl ⟨c, rfl, hcne, rfl⟩⟩
          simp [checkout_cmd, hsp, hc, truthy, hcne]
  · intro h1 h2 h3 h4 c2 hc2
    rw [clone_repo_trace_ok cfg env fs0 h1 h2 h3 h4, hc2]
    rfl

/-- C3 witness: the sparse request carries both flags and its second
command is the sparse-path declaration for "src". -/
theorem c3_witness :
    ("--filter=blob:none") ∈ clone_flags cfgSparse ∧
    ("--sparse") ∈ clone_flags cfgSparse :=
  ⟨(c3_sparse_two_phase cfgSparse envAllOk [] (by decide)).1,
    (c3_sparse_two_phase cfgSparse envAllOk [] (by decide)).2.1⟩
